import Mathlib

/-!
Verification development for the content-safety policy engine described by the
repository specification (PII redaction pipeline and guardrail gating around a
document-and-chat workflow), together with an embedding of the helper code and
collection configurations of the notebook
src/Guardrails_PII/SafeguardingConversationsLLMs.ipynb.

Texts are modelled as lists of characters, entity spans as offset plus matched
content plus label, and the pluggable detector and classifier capabilities as
fallible functions.
-/

/-- A text is a list of characters. -/

abbrev Text := List Char

/-- An entity label such as NAME or PHONE_NUMBER. -/

abbrev Label := String

/-- Modelled from the spec: an EntitySpan is a label together with the offset
and the matched content inside a given text (the end offset is start plus the
length of the content). The detection algorithm itself is external to the
repository; spans are its output. -/

structure Span where
  start : Nat
  content : Text
  label : Label
deriving DecidableEq, Repr

/-- The exclusive end offset of a span. -/

def Span.stop (sp : Span) : Nat := sp.start + sp.content.length

/-- Modelled from the spec: the fixed placeholder token for a label, a bracketed
tag such as the placeholder for NAME. -/

def placeholder (l : Label) : Text := ("[" ++ l ++ "]").toList

/-- A span matches a text when the characters at its offsets are exactly its
recorded content. -/

def matchesAt (t : Text) (sp : Span) : Bool :=
  decide (((t.drop sp.start).take sp.content.length) = sp.content)

/-- Replace the content of one span in a text by its placeholder. -/

def replaceSpan (t : Text) (sp : Span) : Text :=
  t.take sp.start ++ placeholder sp.label ++ t.drop sp.stop

/-- Spans ordered by start offset descending (right to left). -/

def sortSpansDesc (spans : List Span) : List Span :=
  spans.insertionSort (fun a b => b.start ≤ a.start)

/-- Modelled from the spec: the Redaction Applier. Replaces each span whose
content is still present at its offset by the fixed placeholder token tagged
with its label, applied right to left by offset so that earlier offsets stay
valid after earlier replacements change the string length; a span that no
longer matches is skipped, so redacting already-redacted text with no remaining
matching spans returns the input unchanged. -/

def redact (t : Text) (spans : List Span) : Text :=
  (sortSpansDesc spans).foldl
    (fun acc sp => if matchesAt acc sp then replaceSpan acc sp else acc) t

/-- Two spans do not overlap when one ends at or before the other starts. -/

def spansDisjoint (a b : Span) : Prop :=
  a.stop ≤ b.start ∨ b.stop ≤ a.start

instance (a b : Span) : Decidable (spansDisjoint a b) := by
  unfold spansDisjoint; infer_instance

/-- A span list is non-overlapping when its members are pairwise disjoint. -/

def nonOverlapping (spans : List Span) : Prop :=
  spans.Pairwise spansDisjoint

instance (spans : List Span) : Decidable (nonOverlapping spans) := by
  unfold nonOverlapping; infer_instance

/-- All spans describe real matches in the text. -/

def realMatches (t : Text) (spans : List Span) : Prop :=
  ∀ sp ∈ spans, matchesAt t sp = true

instance (t : Text) (spans : List Span) : Decidable (realMatches t spans) := by
  unfold realMatches; infer_instance

-- Folding the redaction step over spans none of which matches leaves the text
-- unchanged.

inductive Category where
  | violentCrimes
  | nonViolentCrimes
  | intellectualProperty
  | privacy
  | defamation
  | codeInterpreterAbuse
  | jailbreak
deriving DecidableEq, Repr

/-- The taxonomy order: the fixed list of all categories. -/

def taxonomy : List Category :=
  [.violentCrimes, .nonViolentCrimes, .intellectualProperty, .privacy,
   .defamation, .codeInterpreterAbuse, .jailbreak]

/-- Every category occurs in the taxonomy list. -/

abbrev ClassResult := Category × Nat

/-- A classifier failure: the invocation threw or timed out. -/

inductive ClassifierError where
  | thrown (msg : String)
  | timeout
deriving DecidableEq, Repr

/-- A detector failure during a redaction checkpoint. -/

inductive DetectorError where
  | thrown (msg : String)
  | timeout
deriving DecidableEq, Repr

/-- The reason attached to a block decision: either a flagged category or a
classifier error under the fail-closed default. -/

inductive BlockReason where
  | category (c : Category)
  | classifierError (e : ClassifierError)
  | detectorError (e : DetectorError)
deriving DecidableEq, Repr

/-- Modelled from the spec: the outcome of the Guardrail Gate, allow or block
with a reason. -/

inductive Decision where
  | allow
  | block (reason : BlockReason)
deriving DecidableEq, Repr

/-- The categories returned by a classification result set. -/

def resultCategories (rs : List ClassResult) : List Category := rs.map Prod.fst

namespace GuardrailGate

/-- Modelled from the spec: the Guardrail Gate decision. Blocks if any returned
category intersects the configured flagged set, regardless of confidence
ordering; the first match by taxonomy order is cited as the block reason.
Allows otherwise. -/

def decide (rs : List ClassResult) (flagged : List Category) : Decision :=
  match taxonomy.find? (fun c => c ∈ resultCategories rs ∧ c ∈ flagged) with
  | some c => .block (.category c)
  | none => .allow

end GuardrailGate

-- If find? over a list yields some element, the list splits at that element
-- and the predicate is false on everything before it.

def scenario1Text : Text :=
  "John Smith".toList ++ [Char.ofNat 39] ++ "s phone is (376) 123-4567".toList

/-- The detected spans for scenario 1: the NAME at offset 0 and the
PHONE_NUMBER at offset 22. -/

def scenario1Spans : List Span :=
  [Span.mk 0 "John Smith".toList "NAME",
   Span.mk 22 "(376) 123-4567".toList "PHONE_NUMBER"]

/-- The expected scenario 1 output with both placeholders substituted. -/

def scenario1Target : Text :=
  "[NAME]".toList ++ [Char.ofNat 39] ++ "s phone is [PHONE_NUMBER]".toList

/-- Claim C6: redacting the scenario 1 input with the NAME and PHONE_NUMBER
spans produces exactly the expected placeholder output; the spans are real,
non-overlapping matches labelled NAME and PHONE_NUMBER. -/

inductive CheckpointAction where
  | allow
  | redact
deriving DecidableEq, Repr

/-- The three pipeline checkpoints. -/

inductive Checkpoint where
  | ingest
  | llmInput
  | llmOutput
deriving DecidableEq, Repr

/-- Modelled from the spec: the per-collection policy configuration, holding
the three independent checkpoint actions, the entity labels to flag, the
guardrail categories to flag, and whether classifier errors fail open. -/

structure PolicyConfig where
  piiLabelsToFlag : List Label
  ingestAction : CheckpointAction
  llmInputAction : CheckpointAction
  llmOutputAction : CheckpointAction
  flaggedCategories : List Category
  failOpen : Bool

/-- The action configured for a checkpoint. -/

def PolicyConfig.actionOf (cfg : PolicyConfig) : Checkpoint → CheckpointAction
  | .ingest => cfg.ingestAction
  | .llmInput => cfg.llmInputAction
  | .llmOutput => cfg.llmOutputAction

/-- A pluggable entity detector: given the labels of interest and a text, it
returns entity spans or fails (thrown or timed out). -/

abbrev Detector := List Label → Text → Except DetectorError (List Span)

/-- A pluggable classifier: returns scored categories or fails. -/

abbrev Classifier := Text → Except ClassifierError (List ClassResult)

/-- Modelled from the spec: the Checkpoint Policy apply operation. If the
configured action is allow, the text is returned unchanged without invoking the
detector; if redact, the detector is invoked with the flagged labels and the
Redaction Applier is applied to its spans. -/

def applyCheckpoint (cfg : PolicyConfig) (det : Detector) (cp : Checkpoint) (t : Text) :
    Except DetectorError Text :=
  match cfg.actionOf cp with
  | .allow => .ok t
  | .redact =>
    match det cfg.piiLabelsToFlag t with
    | .ok spans => .ok (redact t spans)
    | .error e => .error e

/-- A detector failure at a checkpoint passes the raw text through only when
the configuration explicitly fails open; otherwise it propagates. -/

def resolveCheckpoint (cfg : PolicyConfig) (det : Detector) (cp : Checkpoint) (t : Text) :
    Except DetectorError Text :=
  match applyCheckpoint cfg det cp t with
  | .ok r => .ok r
  | .error e => if cfg.failOpen then .ok t else .error e

/-- Modelled from the spec: the gate invocation around the classifier. A
classifier error passes only when the configuration explicitly fails open;
the default is fail closed, blocking with a classifier-error reason. -/

def runGate (cfg : PolicyConfig) (classify : Classifier) (t : Text) : Decision :=
  match classify t with
  | .ok rs => GuardrailGate.decide rs cfg.flaggedCategories
  | .error e => if cfg.failOpen then .allow else .block (.classifierError e)

/-- A stored document: raw text plus a unique identifier. -/

structure Document where
  id : Nat
  content : Text
deriving DecidableEq, Repr

/-- The stored-document state of a collection. -/

abbrev Store := List Document

/-- Modelled from the spec: document ingestion. The ingest checkpoint is
applied before storage; if the detector fails during redact-on-ingest, the
whole call fails and nothing is persisted. -/

def ingestDocument (cfg : PolicyConfig) (det : Detector) (store : Store)
    (docId : Nat) (content : Text) : Store × Except DetectorError Nat :=
  match applyCheckpoint cfg det .ingest content with
  | .ok t => (store ++ [⟨docId, t⟩], .ok docId)
  | .error e => (store, .error e)

/-- The retrieved context for a conversation turn: the stored contents. -/

def retrieveContext (store : Store) : Text := (store.map Document.content).flatten

/-- The refusal notice returned in place of a blocked response. -/

def refusalNotice : Text := "This request was blocked by the configured guardrails.".toList

/-- The outcome of one conversation turn: the decision, the text returned to
the caller, whether the model was invoked and on which input, and the stored
state afterwards. -/

structure TurnOutcome where
  decision : Decision
  finalText : Text
  modelInvoked : Bool
  modelInput : Option Text
  storeAfter : Store

/-- Modelled from the spec: one conversation turn of the Pipeline Orchestrator.
Retrieve context, apply the llm-input checkpoint to the context and to the user
query independently, concatenate, gate the combined input (a block
short-circuits before the model is invoked), invoke the model if allowed, apply
the llm-output checkpoint, gate the response, and return the decision with the
final text; a blocked output is replaced by the refusal notice. -/

def conversationTurn (cfg : PolicyConfig) (det : Detector) (classify : Classifier)
    (model : Text → Text) (store : Store) (query : Text) : TurnOutcome :=
  match resolveCheckpoint cfg det .llmInput (retrieveContext store),
        resolveCheckpoint cfg det .llmInput query with
  | .error e, _ => ⟨.block (.detectorError e), refusalNotice, false, none, store⟩
  | .ok _, .error e => ⟨.block (.detectorError e), refusalNotice, false, none, store⟩
  | .ok ctx, .ok q =>
    match runGate cfg classify (ctx ++ q) with
    | .block r => ⟨.block r, refusalNotice, false, none, store⟩
    | .allow =>
      let response := model (ctx ++ q)
      match resolveCheckpoint cfg det .llmOutput response with
      | .error e => ⟨.block (.detectorError e), refusalNotice, true, some (ctx ++ q), store⟩
      | .ok out =>
        match runGate cfg classify out with
        | .block r => ⟨.block r, refusalNotice, true, some (ctx ++ q), store⟩
        | .allow => ⟨.allow, out, true, some (ctx ++ q), store⟩

/-- Claim C3: a block on the combined input short-circuits the turn before the
model is invoked (the outcome does not depend on the model at all), and a block
on the output returns the refusal notice rather than the generated content. -/

def spanLen (sp : Span) : Nat := sp.content.length

/-- Boolean overlap test between two spans. -/

def overlapsB (a b : Span) : Bool :=
  !(decide (a.stop ≤ b.start) || decide (b.stop ≤ a.start))

/-- Spans ordered by length descending, so longer spans are preferred first. -/

def sortByLenDesc (l : List Span) : List Span :=
  l.insertionSort (fun a b => spanLen b ≤ spanLen a)

/-- Keep a span unless it overlaps an already-kept span. -/

def keepStep (kept : List Span) (sp : Span) : List Span :=
  if kept.any (fun k => overlapsB k sp) then kept else kept ++ [sp]

/-- Modelled from the spec: overlapping spans from multiple detectors are
resolved by preferring the longer span; spans are considered longest first and
a span is dropped when it overlaps a kept (at least as long) span. -/

def resolveOverlaps (l : List Span) : List Span :=
  (sortByLenDesc l).foldl keepStep []

/-- Modelled from the spec: detection with a set of detectors unions the spans
of each detector and resolves overlaps by preferring the longer span. -/

def detectWith (ds : List (Text → List Span)) (t : Text) : List Span :=
  resolveOverlaps ((ds.map (fun d => d t)).flatten)

/-- The Boolean overlap test is false exactly on disjoint spans. -/

abbrev FileSystem := List (String × String)

/-- Open a file in write mode and write content, overwriting what was there. -/

def writeFile (fs : FileSystem) (name content : String) : FileSystem :=
  (name, content) :: fs

/-- Read a file: the most recently written content under that name. -/

def readFile (fs : FileSystem) (name : String) : Option String :=
  (fs.find? (fun p => p.1 = name)).map Prod.snd

/-- An upload handle returned by the client upload call, carrying the uploaded
bytes. -/

structure UploadHandle where
  content : String
deriving DecidableEq, Repr

/-- The client-visible server state: each collection id maps to the list of
ingested document contents. -/

structure ClientState where
  collections : List (Nat × List String)
deriving DecidableEq, Repr

/-- The documents ingested so far into a collection. -/

def collectionDocs (st : ClientState) (cid : Nat) : List String :=
  ((st.collections.find? (fun p => p.1 = cid)).map Prod.snd).getD []

/-- Embedding of client.upload: uploading a file yields a handle on its
content. -/

def clientUpload (content : String) : UploadHandle := ⟨content⟩

/-- Embedding of client.ingest_uploads: the uploaded contents are ingested
into the given collection. -/

def ingestUploads (st : ClientState) (cid : Nat) (handles : List UploadHandle) :
    ClientState :=
  ⟨(cid, collectionDocs st cid ++ handles.map UploadHandle.content)
    :: st.collections.filter (fun p => p.1 ≠ cid)⟩

/-- The fixed sample sentence written by ingest_documents in the notebook. -/

def samplePiiText : String :=
  "John Smith, a Data Scientist at H2O AI, lives in Mountain View. His phone number is (376) 123-4567, and his email is johnsmith@h2o.ai. He holds a bank account with Central Bank under account number 987654321."

/-- Embedding of the ingest_documents helper from the notebook: overwrite
sample_pii_doc.txt with the fixed sample sentence, upload that file, and
ingest the upload into the given collection. -/

def ingest_documents (collection_id : Nat) (fs : FileSystem) (st : ClientState) :
    FileSystem × ClientState :=
  let fs1 := writeFile fs "sample_pii_doc.txt" samplePiiText
  let content := (readFile fs1 "sample_pii_doc.txt").getD ""
  let handle := clientUpload content
  (fs1, ingestUploads st collection_id [handle])

/-- Reading a file straight after writing it returns the written content. -/

structure GuardrailsSettings where
  pii_labels_to_flag : List String
  pii_detection_parse_action : String
  pii_detection_llm_input_action : String
  pii_detection_llm_output_action : String
deriving DecidableEq, Repr

/-- The PII Level 1 collection settings: redact while parsing and ingesting. -/

def piiLevel1Settings : GuardrailsSettings :=
  ⟨["NAME", "FIRSTNAME", "LASTNAME", "PHONE_NUMBER", "ACCOUNTNUMBER", "EMAIL", "STREETADDRESS"],
   "redact", "allow", "allow"⟩

/-- The PII Level 2 collection settings: redact only the LLM input. -/

def piiLevel2Settings : GuardrailsSettings :=
  ⟨["NAME", "FIRSTNAME", "LASTNAME", "PHONE_NUMBER", "ACCOUNTNUMBER", "EMAIL", "STREETADDRESS"],
   "allow", "redact", "allow"⟩

/-- The PII Level 3 collection settings: redact only the LLM output. -/

def piiLevel3Settings : GuardrailsSettings :=
  ⟨["NAME", "FIRSTNAME", "LASTNAME", "PHONE_NUMBER", "ACCOUNTNUMBER", "EMAIL", "STREETADDRESS"],
   "allow", "allow", "redact"⟩

/-- Claim C10: the three demonstration collections flag the identical entity
label set, and each sets exactly one of the three checkpoint actions to redact
(parse for level 1, llm input for level 2, llm output for level 3) with the
other two set to allow. -/

lemma foldl_redact_step_of_no_match (l : List Span) (t : Text)
    (h : ∀ sp ∈ l, matchesAt t sp = false) :
    l.foldl (fun acc sp => if matchesAt acc sp then replaceSpan acc sp else acc) t = t := by
  induction l with
  | nil => rfl
  | cons sp rest ih =>
    have hsp : matchesAt t sp = false := h sp (List.mem_cons_self sp rest)
    simp only [List.foldl_cons, hsp, Bool.false_eq_true, if_false]
    exact ih (fun x hx => h x (List.mem_cons_of_mem sp hx))

/-- Membership is preserved by the descending sort of spans. -/

lemma mem_sortSpansDesc (spans : List Span) (sp : Span) :
    sp ∈ sortSpansDesc spans ↔ sp ∈ spans :=
  (List.perm_insertionSort (fun a b => b.start ≤ a.start) spans).mem_iff

/-- Redacting a text in which no span of the list matches returns the input
unchanged. -/

lemma redact_eq_self_of_no_match (t : Text) (spans : List Span)
    (h : ∀ sp ∈ spans, matchesAt t sp = false) : redact t spans = t := by
  unfold redact
  exact foldl_redact_step_of_no_match _ t
    (fun sp hsp => h sp ((mem_sortSpansDesc spans sp).mp hsp))

/-- Modelled from the spec: the fixed taxonomy of unsafe-content categories
gating request execution (the Llama Guard categories listed in the notebook
plus the prompt-intent jailbreak category), in taxonomy order. -/

lemma mem_taxonomy (c : Category) : c ∈ taxonomy := by
  cases c <;> simp [taxonomy]

/-- A classification result: a category paired with a confidence score. -/

lemma find?_split {α : Type} (p : α → Bool) (l : List α) (a : α)
    (h : l.find? p = some a) :
    p a = true ∧ ∃ pre post, l = pre ++ a :: post ∧ ∀ b ∈ pre, p b = false := by
  induction l with
  | nil => simp at h
  | cons x rest ih =>
    by_cases hx : p x = true
    · rw [List.find?_cons_of_pos _ hx] at h
      obtain rfl : x = a := by injection h
      exact ⟨hx, [], rest, rfl, by simp⟩
    · have hx0 : p x = false := by
        cases hpx : p x with
        | false => rfl
        | true => exact absurd hpx hx
      rw [List.find?_cons_of_neg _ (by simp [hx0])] at h
      obtain ⟨hpa, pre, post, hsplit, hpre⟩ := ih h
      refine ⟨hpa, x :: pre, post, by simp [hsplit], ?_⟩
      intro b hb
      rcases List.mem_cons.mp hb with rfl | hb
      · exact hx0
      · exact hpre b hb

/-- Claim C1: the Guardrail Gate decision blocks iff the returned category set
intersects the configured flagged set, the empty flagged set never blocks, and
the cited block reason is the first match in taxonomy order. -/

theorem claim_C1_gate_decide_correct (rs : List ClassResult) (flagged : List Category) :
    ((GuardrailGate.decide rs flagged ≠ Decision.allow) ↔
      ∃ c, c ∈ resultCategories rs ∧ c ∈ flagged)
    ∧ GuardrailGate.decide rs [] = Decision.allow
    ∧ (∀ c, GuardrailGate.decide rs flagged = Decision.block (.category c) →
        c ∈ resultCategories rs ∧ c ∈ flagged ∧
        ∃ pre post, taxonomy = pre ++ c :: post ∧
          ∀ b ∈ pre, ¬(b ∈ resultCategories rs ∧ b ∈ flagged)) := by
  refine ⟨⟨?_, ?_⟩, ?_, ?_⟩
  · intro hne
    unfold GuardrailGate.decide at hne
    cases hfind : taxonomy.find? (fun c => decide (c ∈ resultCategories rs ∧ c ∈ flagged)) with
    | none => rw [hfind] at hne; exact absurd rfl hne
    | some c =>
      have := (find?_split _ _ _ hfind).1
      simp only [decide_eq_true_eq] at this
      exact ⟨c, this⟩
  · intro ⟨c, hc, hcf⟩
    unfold GuardrailGate.decide
    cases hfind : taxonomy.find? (fun c => decide (c ∈ resultCategories rs ∧ c ∈ flagged)) with
    | none =>
      have := List.find?_eq_none.mp hfind c (mem_taxonomy c)
      simp only [decide_eq_true_eq] at this
      exact absurd ⟨hc, hcf⟩ this
    | some c₀ => simp
  · unfold GuardrailGate.decide
    have hnone : taxonomy.find? (fun c => decide (c ∈ resultCategories rs ∧ c ∈ ([] : List Category))) = none := by
      apply List.find?_eq_none.mpr
      intro a _
      simp
    rw [hnone]
  · intro c hdec
    unfold GuardrailGate.decide at hdec
    cases hfind : taxonomy.find? (fun c => decide (c ∈ resultCategories rs ∧ c ∈ flagged)) with
    | none => rw [hfind] at hdec; exact absurd hdec (by simp)
    | some c₀ =>
      rw [hfind] at hdec
      simp only [Decision.block.injEq, BlockReason.category.injEq] at hdec
      subst hdec
      obtain ⟨hp, pre, post, hsplit, hpre⟩ := find?_split _ _ _ hfind
      simp only [decide_eq_true_eq] at hp
      refine ⟨hp.1, hp.2, pre, post, hsplit, ?_⟩
      intro b hb
      have := hpre b hb
      simp only [decide_eq_false_iff_not] at this
      exact this

/-- Witness for claim C1 at a concrete classification result and flagged set:
the gate blocks on the first flagged match in taxonomy order. -/

theorem claim_C1_gate_decide_correct_witness :
    Category.violentCrimes ∈ resultCategories [(Category.privacy, 9), (Category.violentCrimes, 8)]
    ∧ Category.violentCrimes ∈ [Category.privacy, Category.violentCrimes]
    ∧ ∃ pre post, taxonomy = pre ++ Category.violentCrimes :: post ∧
        ∀ b ∈ pre, ¬(b ∈ resultCategories [(Category.privacy, 9), (Category.violentCrimes, 8)]
          ∧ b ∈ [Category.privacy, Category.violentCrimes]) :=
  (claim_C1_gate_decide_correct [(Category.privacy, 9), (Category.violentCrimes, 8)]
    [Category.privacy, Category.violentCrimes]).2.2 Category.violentCrimes (by decide)

/-- Claim C2 counterexample: a non-overlapping span that really matches the
text, whose content re-matches inside its own inserted placeholder, makes
double redaction differ from single redaction. -/

theorem claim_C2_counterexample :
    nonOverlapping [Span.mk 0 "[X".toList "X"]
    ∧ realMatches "[Xq".toList [Span.mk 0 "[X".toList "X"]
    ∧ redact (redact "[Xq".toList [Span.mk 0 "[X".toList "X"]) [Span.mk 0 "[X".toList "X"]
        ≠ redact "[Xq".toList [Span.mk 0 "[X".toList "X"] := by decide

/-- Claim C2 (amended): for non-overlapping spans that describe real matches in
the text, double redaction equals single redaction provided no span content
re-matches the once-redacted text (in particular, redacting already-redacted
text with no remaining matching spans returns the input unchanged). -/

theorem claim_C2_redact_idempotent (t : Text) (spans : List Span)
    (hnov : nonOverlapping spans) (hreal : realMatches t spans)
    (hno : ∀ sp ∈ spans, matchesAt (redact t spans) sp = false) :
    redact (redact t spans) spans = redact t spans :=
  redact_eq_self_of_no_match _ _ hno

/-- Witness for claim C2 at a concrete text and span set. -/

theorem claim_C2_redact_idempotent_witness :
    redact (redact "John".toList [Span.mk 0 "John".toList "NAME"]) [Span.mk 0 "John".toList "NAME"]
      = redact "John".toList [Span.mk 0 "John".toList "NAME"] :=
  claim_C2_redact_idempotent _ _ (by decide) (by decide) (by decide)

/-- The scenario 1 input text: a name and a phone number around an apostrophe. -/

theorem claim_C6_scenario1_redact :
    redact scenario1Text scenario1Spans = scenario1Target
    ∧ realMatches scenario1Text scenario1Spans
    ∧ nonOverlapping scenario1Spans
    ∧ scenario1Spans.map Span.label = ["NAME", "PHONE_NUMBER"] := by decide

/-- A checkpoint action: pass the text through or redact it. -/

theorem claim_C3_block_short_circuit :
    (∀ (cfg : PolicyConfig) (det : Detector) (classify : Classifier)
       (model : Text → Text) (store : Store) (query ctx q : Text) (r : BlockReason),
      resolveCheckpoint cfg det .llmInput (retrieveContext store) = .ok ctx →
      resolveCheckpoint cfg det .llmInput query = .ok q →
      runGate cfg classify (ctx ++ q) = .block r →
      (conversationTurn cfg det classify model store query).modelInvoked = false ∧
      ∀ model₂, conversationTurn cfg det classify model store query
        = conversationTurn cfg det classify model₂ store query)
    ∧ (∀ (cfg : PolicyConfig) (det : Detector) (classify : Classifier)
         (model : Text → Text) (store : Store) (query ctx q out : Text) (r : BlockReason),
      resolveCheckpoint cfg det .llmInput (retrieveContext store) = .ok ctx →
      resolveCheckpoint cfg det .llmInput query = .ok q →
      runGate cfg classify (ctx ++ q) = .allow →
      resolveCheckpoint cfg det .llmOutput (model (ctx ++ q)) = .ok out →
      runGate cfg classify out = .block r →
      (conversationTurn cfg det classify model store query).finalText = refusalNotice ∧
      (conversationTurn cfg det classify model store query).decision = .block r) := by
  constructor
  · intro cfg det classify model store query ctx q r hctx hq hgate
    constructor
    · simp only [conversationTurn, hctx, hq, hgate]
    · intro model₂
      simp only [conversationTurn, hctx, hq, hgate]
  · intro cfg det classify model store query ctx q out r hctx hq hgin hout hgout
    simp [conversationTurn, hctx, hq, hgin, hout, hgout]

/-- Witness for claim C3 at concrete configurations: a jailbreak-flagged input
is blocked with the model never invoked and the turn independent of the model,
and a flagged output is replaced by the refusal notice. -/

theorem claim_C3_block_short_circuit_witness :
    ((conversationTurn ⟨[], .allow, .allow, .allow, [Category.jailbreak], false⟩
        (fun _ _ => .ok []) (fun _ => .ok [(Category.jailbreak, 9)])
        (fun t => t) [] "pw".toList).modelInvoked = false
      ∧ conversationTurn ⟨[], .allow, .allow, .allow, [Category.jailbreak], false⟩
          (fun _ _ => .ok []) (fun _ => .ok [(Category.jailbreak, 9)])
          (fun t => t) [] "pw".toList
        = conversationTurn ⟨[], .allow, .allow, .allow, [Category.jailbreak], false⟩
            (fun _ _ => .ok []) (fun _ => .ok [(Category.jailbreak, 9)])
            (fun _ => "leak".toList) [] "pw".toList)
    ∧ ((conversationTurn ⟨[], .allow, .allow, .allow, [Category.jailbreak], false⟩
          (fun _ _ => .ok []) (fun t => if t = [] then .ok [] else .ok [(Category.jailbreak, 9)])
          (fun _ => "leak".toList) [] []).finalText = refusalNotice
      ∧ (conversationTurn ⟨[], .allow, .allow, .allow, [Category.jailbreak], false⟩
          (fun _ _ => .ok []) (fun t => if t = [] then .ok [] else .ok [(Category.jailbreak, 9)])
          (fun _ => "leak".toList) [] []).decision
        = .block (.category Category.jailbreak)) := by
  constructor
  · have h := claim_C3_block_short_circuit.1
      ⟨[], .allow, .allow, .allow, [Category.jailbreak], false⟩
      (fun _ _ => .ok []) (fun _ => .ok [(Category.jailbreak, 9)])
      (fun t => t) [] "pw".toList [] "pw".toList
      (.category Category.jailbreak) rfl rfl (by decide)
    exact ⟨h.1, h.2 (fun _ => "leak".toList)⟩
  · exact claim_C3_block_short_circuit.2
      ⟨[], .allow, .allow, .allow, [Category.jailbreak], false⟩
      (fun _ _ => .ok []) (fun t => if t = [] then .ok [] else .ok [(Category.jailbreak, 9)])
      (fun _ => "leak".toList) [] [] [] [] "leak".toList
      (.category Category.jailbreak) rfl rfl (by decide) rfl (by decide)

/-- Claim C4: unless the configuration explicitly fails open, a classifier
failure at either gate invocation resolves the turn to a block decision with a
classifier-error reason, never to allow. -/

theorem claim_C4_fail_closed_on_classifier_error :
    (∀ (cfg : PolicyConfig) (det : Detector) (classify : Classifier)
       (model : Text → Text) (store : Store) (query ctx q : Text) (e : ClassifierError),
      cfg.failOpen = false →
      resolveCheckpoint cfg det .llmInput (retrieveContext store) = .ok ctx →
      resolveCheckpoint cfg det .llmInput query = .ok q →
      classify (ctx ++ q) = .error e →
      (conversationTurn cfg det classify model store query).decision
          = .block (.classifierError e) ∧
      (conversationTurn cfg det classify model store query).decision ≠ .allow)
    ∧ (∀ (cfg : PolicyConfig) (det : Detector) (classify : Classifier)
         (model : Text → Text) (store : Store) (query ctx q out : Text) (e : ClassifierError),
      cfg.failOpen = false →
      resolveCheckpoint cfg det .llmInput (retrieveContext store) = .ok ctx →
      resolveCheckpoint cfg det .llmInput query = .ok q →
      runGate cfg classify (ctx ++ q) = .allow →
      resolveCheckpoint cfg det .llmOutput (model (ctx ++ q)) = .ok out →
      classify out = .error e →
      (conversationTurn cfg det classify model store query).decision
          = .block (.classifierError e) ∧
      (conversationTurn cfg det classify model store query).decision ≠ .allow) := by
  constructor
  · intro cfg det classify model store query ctx q e hfo hctx hq hcl
    have hgate : runGate cfg classify (ctx ++ q) = .block (.classifierError e) := by
      simp [runGate, hcl, hfo]
    simp [conversationTurn, hctx, hq, hgate]
  · intro cfg det classify model store query ctx q out e hfo hctx hq hgin hout hcl
    have hgate : runGate cfg classify out = .block (.classifierError e) := by
      simp [runGate, hcl, hfo]
    simp [conversationTurn, hctx, hq, hgin, hout, hgate]

/-- Witness for claim C4: a classifier that times out resolves a concrete turn
to a block with a classifier-error reason at the input gate and, with a
text-dependent classifier, at the output gate. -/

theorem claim_C4_fail_closed_on_classifier_error_witness :
    ((conversationTurn ⟨[], .allow, .allow, .allow, [Category.jailbreak], false⟩
        (fun _ _ => .ok []) (fun _ => .error .timeout)
        (fun t => t) [] "hi".toList).decision
      = .block (.classifierError .timeout)
      ∧ (conversationTurn ⟨[], .allow, .allow, .allow, [Category.jailbreak], false⟩
          (fun _ _ => .ok []) (fun _ => .error .timeout)
          (fun t => t) [] "hi".toList).decision ≠ .allow)
    ∧ ((conversationTurn ⟨[], .allow, .allow, .allow, [Category.jailbreak], false⟩
        (fun _ _ => .ok []) (fun t => if t = [] then .ok [] else .error .timeout)
        (fun _ => "leak".toList) [] []).decision
      = .block (.classifierError .timeout)
      ∧ (conversationTurn ⟨[], .allow, .allow, .allow, [Category.jailbreak], false⟩
          (fun _ _ => .ok []) (fun t => if t = [] then .ok [] else .error .timeout)
          (fun _ => "leak".toList) [] []).decision ≠ .allow) :=
  ⟨claim_C4_fail_closed_on_classifier_error.1
      ⟨[], .allow, .allow, .allow, [Category.jailbreak], false⟩
      (fun _ _ => .ok []) (fun _ => .error .timeout)
      (fun t => t) [] "hi".toList [] "hi".toList .timeout rfl rfl rfl rfl,
   claim_C4_fail_closed_on_classifier_error.2
      ⟨[], .allow, .allow, .allow, [Category.jailbreak], false⟩
      (fun _ _ => .ok []) (fun t => if t = [] then .ok [] else .error .timeout)
      (fun _ => "leak".toList) [] [] [] [] "leak".toList .timeout
      rfl rfl rfl (by decide) rfl rfl⟩

/-- Claim C5: with the ingest checkpoint action set to redact, a detector
failure during ingestion fails the whole call and persists nothing: the store
after the failed call equals the store before it. -/

theorem claim_C5_ingest_atomic (cfg : PolicyConfig) (det : Detector) (store : Store)
    (docId : Nat) (content : Text) (e : DetectorError)
    (hact : cfg.ingestAction = .redact)
    (hdet : det cfg.piiLabelsToFlag content = .error e) :
    (ingestDocument cfg det store docId content).1 = store ∧
    (ingestDocument cfg det store docId content).2 = .error e ∧
    ∀ d ∈ (ingestDocument cfg det store docId content).1, d ∈ store := by
  have happ : applyCheckpoint cfg det .ingest content = .error e := by
    simp [applyCheckpoint, PolicyConfig.actionOf, hact, hdet]
  simp [ingestDocument, happ]

/-- Witness for claim C5: a timing-out detector with redact-on-ingest leaves a
concrete store unchanged and reports the error. -/

theorem claim_C5_ingest_atomic_witness :
    (ingestDocument ⟨["NAME"], .redact, .allow, .allow, [], false⟩
        (fun _ _ => .error .timeout) [Document.mk 7 "kept".toList] 1 "John".toList).1
      = [Document.mk 7 "kept".toList]
    ∧ (ingestDocument ⟨["NAME"], .redact, .allow, .allow, [], false⟩
        (fun _ _ => .error .timeout) [Document.mk 7 "kept".toList] 1 "John".toList).2
      = .error .timeout
    ∧ ∀ d ∈ (ingestDocument ⟨["NAME"], .redact, .allow, .allow, [], false⟩
        (fun _ _ => .error .timeout) [Document.mk 7 "kept".toList] 1 "John".toList).1,
        d ∈ [Document.mk 7 "kept".toList] :=
  claim_C5_ingest_atomic ⟨["NAME"], .redact, .allow, .allow, [], false⟩
    (fun _ _ => .error .timeout) [Document.mk 7 "kept".toList] 1 "John".toList
    .timeout rfl rfl

/-- Claim C7: a checkpoint whose configured action is allow returns its text
exactly unchanged; with ingest set to allow the document is stored unredacted,
with llm-input set to redact the model receives the redacted retrieved context
and query, and the stored documents are unchanged by a conversation turn. -/

theorem claim_C7_allow_is_identity :
    (∀ (cfg : PolicyConfig) (det : Detector) (cp : Checkpoint) (t : Text),
      cfg.actionOf cp = .allow → applyCheckpoint cfg det cp t = .ok t)
    ∧ (∀ (cfg : PolicyConfig) (det : Detector) (store : Store) (docId : Nat) (content : Text),
      cfg.ingestAction = .allow →
      ingestDocument cfg det store docId content = (store ++ [⟨docId, content⟩], .ok docId))
    ∧ (∀ (cfg : PolicyConfig) (det : Detector) (classify : Classifier)
         (model : Text → Text) (store : Store) (query : Text)
         (spans qspans : List Span),
      cfg.llmInputAction = .redact →
      det cfg.piiLabelsToFlag (retrieveContext store) = .ok spans →
      det cfg.piiLabelsToFlag query = .ok qspans →
      runGate cfg classify (redact (retrieveContext store) spans ++ redact query qspans)
        = .allow →
      (conversationTurn cfg det classify model store query).modelInput
        = some (redact (retrieveContext store) spans ++ redact query qspans))
    ∧ (∀ (cfg : PolicyConfig) (det : Detector) (classify : Classifier)
         (model : Text → Text) (store : Store) (query : Text),
      (conversationTurn cfg det classify model store query).storeAfter = store) := by
  refine ⟨?_, ?_, ?_, ?_⟩
  · intro cfg det cp t hact
    simp [applyCheckpoint, hact]
  · intro cfg det store docId content hact
    simp [ingestDocument, applyCheckpoint, PolicyConfig.actionOf, hact]
  · intro cfg det classify model store query spans qspans hact hdc hdq hgate
    have hctx : resolveCheckpoint cfg det .llmInput (retrieveContext store)
        = .ok (redact (retrieveContext store) spans) := by
      simp [resolveCheckpoint, applyCheckpoint, PolicyConfig.actionOf, hact, hdc]
    have hq : resolveCheckpoint cfg det .llmInput query = .ok (redact query qspans) := by
      simp [resolveCheckpoint, applyCheckpoint, PolicyConfig.actionOf, hact, hdq]
    simp only [conversationTurn, hctx, hq, hgate]
    cases hout : resolveCheckpoint cfg det .llmOutput
        (model (redact (retrieveContext store) spans ++ redact query qspans)) with
    | error e => simp
    | ok out =>
      cases hg2 : runGate cfg classify out with
      | allow => simp [hg2]
      | block r => simp [hg2]
  · intro cfg det classify model store query
    unfold conversationTurn
    split
    · rfl
    · rfl
    · split
      · rfl
      · dsimp only
        split
        · rfl
        · split
          · rfl
          · rfl

/-- Witness for claim C7 at concrete configurations: an allow ingest checkpoint
stores the raw text, a redacting input checkpoint hands the model the redacted
texts, and a turn leaves the store untouched. -/

theorem claim_C7_allow_is_identity_witness :
    applyCheckpoint ⟨["NAME"], .allow, .redact, .allow, [], false⟩
        (fun _ _ => .ok []) .ingest "John".toList = .ok "John".toList
    ∧ ingestDocument ⟨["NAME"], .allow, .redact, .allow, [], false⟩
        (fun _ _ => .ok []) [] 0 "John".toList
      = ([Document.mk 0 "John".toList], .ok 0)
    ∧ (conversationTurn ⟨["NAME"], .allow, .redact, .allow, [], false⟩
        (fun _ _ => .ok [Span.mk 0 "John".toList "NAME"])
        (fun _ => .ok []) (fun t => t)
        [Document.mk 0 "John".toList] "John".toList).modelInput
      = some (redact "John".toList [Span.mk 0 "John".toList "NAME"]
          ++ redact "John".toList [Span.mk 0 "John".toList "NAME"])
    ∧ (conversationTurn ⟨["NAME"], .allow, .redact, .allow, [], false⟩
        (fun _ _ => .ok [Span.mk 0 "John".toList "NAME"])
        (fun _ => .ok []) (fun t => t)
        [Document.mk 0 "John".toList] "John".toList).storeAfter
      = [Document.mk 0 "John".toList] := by
  refine ⟨?_, ?_, ?_, ?_⟩
  · exact claim_C7_allow_is_identity.1 ⟨["NAME"], .allow, .redact, .allow, [], false⟩
      (fun _ _ => .ok []) .ingest "John".toList rfl
  · exact claim_C7_allow_is_identity.2.1 ⟨["NAME"], .allow, .redact, .allow, [], false⟩
      (fun _ _ => .ok []) [] 0 "John".toList rfl
  · have h := claim_C7_allow_is_identity.2.2.1
      ⟨["NAME"], .allow, .redact, .allow, [], false⟩
      (fun _ _ => .ok [Span.mk 0 "John".toList "NAME"])
      (fun _ => .ok []) (fun t => t)
      [Document.mk 0 "John".toList] "John".toList
      [Span.mk 0 "John".toList "NAME"] [Span.mk 0 "John".toList "NAME"]
      rfl rfl rfl (by decide)
    exact h
  · exact claim_C7_allow_is_identity.2.2.2
      ⟨["NAME"], .allow, .redact, .allow, [], false⟩
      (fun _ _ => .ok [Span.mk 0 "John".toList "NAME"])
      (fun _ => .ok []) (fun t => t)
      [Document.mk 0 "John".toList] "John".toList

/-- The length of a span. -/

lemma overlapsB_eq_false_iff (a b : Span) :
    overlapsB a b = false ↔ spansDisjoint a b := by
  simp [overlapsB, spansDisjoint]
  omega

/-- Span disjointness is symmetric. -/

lemma spansDisjoint_symm : Symmetric spansDisjoint :=
  fun _ _ h => h.symm

/-- Folding the keep step over pairwise-disjoint spans that are also disjoint
from everything already kept retains every span. -/

lemma foldl_keepStep_length (l : List Span) :
    ∀ acc : List Span, (∀ k ∈ acc, ∀ sp ∈ l, overlapsB k sp = false) →
    l.Pairwise spansDisjoint →
    (l.foldl keepStep acc).length = acc.length + l.length := by
  induction l with
  | nil => intro acc _ _; simp
  | cons sp rest ih =>
    intro acc hacc hp
    have hany : acc.any (fun k => overlapsB k sp) = false := by
      apply List.any_eq_false.mpr
      intro k hk
      simp [hacc k hk sp (List.mem_cons_self sp rest)]
    have hstep : keepStep acc sp = acc ++ [sp] := by
      simp [keepStep, hany]
    have hpr := List.pairwise_cons.mp hp
    have hrec := ih (acc ++ [sp]) ?_ hpr.2
    · simp only [List.foldl_cons, hstep, hrec]
      simp
      omega
    · intro k hk x hx
      rcases List.mem_append.mp hk with hk | hk
      · exact hacc k hk x (List.mem_cons_of_mem sp hx)
      · have : k = sp := by simpa using hk
        subst this
        exact (overlapsB_eq_false_iff k x).mpr (hpr.1 x hx)

/-- Resolving overlaps of pairwise-disjoint spans keeps them all. -/

lemma resolveOverlaps_length (l : List Span) (h : l.Pairwise spansDisjoint) :
    (resolveOverlaps l).length = l.length := by
  have hperm : (sortByLenDesc l).Perm l :=
    List.perm_insertionSort (fun a b => spanLen b ≤ spanLen a) l
  have hps : (sortByLenDesc l).Pairwise spansDisjoint :=
    (hperm.pairwise_iff (fun h => spansDisjoint_symm h)).mpr h
  have hfold := foldl_keepStep_length (sortByLenDesc l) [] (by simp) hps
  unfold resolveOverlaps
  rw [hfold, hperm.length_eq]
  simp

/-- Claim C8 counterexample: with overlap resolution preferring the longer
span, detecting with a pair of detectors can return strictly fewer spans than
detecting with the first detector alone (one long span of the second detector
displaces two short spans of the first). -/

theorem claim_C8_counterexample :
    (detectWith [fun _ => [Span.mk 0 "ab".toList "X", Span.mk 3 "cd".toList "X"],
                 fun _ => [Span.mk 0 "abcde".toList "Y"]] []).length
      < (detectWith [fun _ => [Span.mk 0 "ab".toList "X", Span.mk 3 "cd".toList "X"]] []).length := by
  decide

/-- Claim C8 (amended): when the spans returned by the two detectors are
pairwise non-overlapping, detecting with the detector set of both returns at
least as many spans as detecting with the first alone; with overlapping spans,
longer-span resolution can strictly decrease the count. -/

theorem claim_C8_detector_union_monotone (A B : Text → List Span) (t : Text)
    (h : nonOverlapping (A t ++ B t)) :
    (detectWith [A] t).length ≤ (detectWith [A, B] t).length := by
  have hA : (A t).Pairwise spansDisjoint := (List.pairwise_append.mp h).1
  have e1 : detectWith [A] t = resolveOverlaps (A t) := by
    simp [detectWith]
  have e2 : detectWith [A, B] t = resolveOverlaps (A t ++ B t) := by
    simp [detectWith]
  rw [e1, e2, resolveOverlaps_length _ hA, resolveOverlaps_length _ h]
  simp

/-- Witness for claim C8 at two concrete detectors with disjoint spans. -/

theorem claim_C8_detector_union_monotone_witness :
    (detectWith [fun _ => [Span.mk 0 "ab".toList "X"]] []).length
      ≤ (detectWith [fun _ => [Span.mk 0 "ab".toList "X"],
                     fun _ => [Span.mk 5 "cd".toList "Y"]] []).length :=
  claim_C8_detector_union_monotone (fun _ => [Span.mk 0 "ab".toList "X"])
    (fun _ => [Span.mk 5 "cd".toList "Y"]) [] (by decide)

/-- A file system as an association of file names to contents; writes prepend,
reads find the most recent write. -/

lemma readFile_writeFile (fs : FileSystem) (name content : String) :
    readFile (writeFile fs name content) name = some content := by
  simp [readFile, writeFile]

/-- Ingesting uploads appends their contents to the target collection. -/

lemma collectionDocs_ingestUploads (st : ClientState) (cid : Nat)
    (handles : List UploadHandle) :
    collectionDocs (ingestUploads st cid handles) cid
      = collectionDocs st cid ++ handles.map UploadHandle.content := by
  simp [collectionDocs, ingestUploads]

/-- Claim C9: every call of ingest_documents first overwrites
sample_pii_doc.txt with the fixed sample sentence, then ingests exactly that
content into the given collection; the ingested content is the same on every
call and does not depend on the collection id or the prior file contents. -/

theorem claim_C9_ingest_documents_fixed_content
    (cid cid₂ : Nat) (fs fs₂ : FileSystem) (st st₂ : ClientState) :
    readFile (ingest_documents cid fs st).1 "sample_pii_doc.txt" = some samplePiiText
    ∧ collectionDocs (ingest_documents cid fs st).2 cid
        = collectionDocs st cid ++ [samplePiiText]
    ∧ (collectionDocs (ingest_documents cid fs st).2 cid).getLast? = some samplePiiText
    ∧ (collectionDocs (ingest_documents cid fs st).2 cid).getLast?
        = (collectionDocs (ingest_documents cid₂ fs₂ st₂).2 cid₂).getLast? := by
  have hread : ∀ (f : FileSystem),
      readFile (writeFile f "sample_pii_doc.txt" samplePiiText) "sample_pii_doc.txt"
        = some samplePiiText := fun f => readFile_writeFile f _ _
  refine ⟨hread fs, ?_, ?_, ?_⟩
  · show collectionDocs (ingestUploads st cid [clientUpload
      ((readFile (writeFile fs "sample_pii_doc.txt" samplePiiText)
        "sample_pii_doc.txt").getD "")]) cid = collectionDocs st cid ++ [samplePiiText]
    rw [hread fs]
    simp [collectionDocs_ingestUploads, clientUpload]
  · show ((collectionDocs (ingestUploads st cid [clientUpload
      ((readFile (writeFile fs "sample_pii_doc.txt" samplePiiText)
        "sample_pii_doc.txt").getD "")]) cid)).getLast? = some samplePiiText
    rw [hread fs]
    simp [collectionDocs_ingestUploads, clientUpload]
  · show ((collectionDocs (ingestUploads st cid [clientUpload
      ((readFile (writeFile fs "sample_pii_doc.txt" samplePiiText)
        "sample_pii_doc.txt").getD "")]) cid)).getLast?
      = ((collectionDocs (ingestUploads st₂ cid₂ [clientUpload
      ((readFile (writeFile fs₂ "sample_pii_doc.txt" samplePiiText)
        "sample_pii_doc.txt").getD "")]) cid₂)).getLast?
    rw [hread fs, hread fs₂]
    simp [collectionDocs_ingestUploads, clientUpload]

/-- Embedding of the guardrails_settings dictionaries passed to
create_collection in the notebook. -/

theorem claim_C10_demo_settings_one_hot :
    (piiLevel1Settings.pii_labels_to_flag
        = ["NAME", "FIRSTNAME", "LASTNAME", "PHONE_NUMBER", "ACCOUNTNUMBER", "EMAIL", "STREETADDRESS"]
      ∧ piiLevel2Settings.pii_labels_to_flag = piiLevel1Settings.pii_labels_to_flag
      ∧ piiLevel3Settings.pii_labels_to_flag = piiLevel1Settings.pii_labels_to_flag)
    ∧ (piiLevel1Settings.pii_detection_parse_action = "redact"
      ∧ piiLevel1Settings.pii_detection_llm_input_action = "allow"
      ∧ piiLevel1Settings.pii_detection_llm_output_action = "allow")
    ∧ (piiLevel2Settings.pii_detection_parse_action = "allow"
      ∧ piiLevel2Settings.pii_detection_llm_input_action = "redact"
      ∧ piiLevel2Settings.pii_detection_llm_output_action = "allow")
    ∧ (piiLevel3Settings.pii_detection_parse_action = "allow"
      ∧ piiLevel3Settings.pii_detection_llm_input_action = "allow"
      ∧ piiLevel3Settings.pii_detection_llm_output_action = "redact") := by
  refine ⟨⟨rfl, rfl, rfl⟩, ⟨rfl, rfl, rfl⟩, ⟨rfl, rfl, rfl⟩, ⟨rfl, rfl, rfl⟩⟩
